import Mathlib

/-!
Verification of the DREW backend (routes.py, google_integration.py, models.py)
against its natural-language specification.  The Python source is shallowly
embedded: pure helpers become Lean functions on `String`/`List Char`; the
SQLAlchemy session becomes explicit state passing over list-based tables; the
external HTTP/OAuth/mail services become outcome oracles passed as arguments;
Python exceptions become `Except` values, with each route's blanket
`except Exception` handler modelled as a final catch that maps every escaped
exception (including FastAPI's `HTTPException`, which subclasses `Exception`)
to a 500 response.
-/

namespace Drew

/-! ## Python string primitives -/

/-- Whitespace characters stripped by Python `str.strip()` (ASCII subset). -/
def pyWs (c : Char) : Bool :=
  c == ' ' || c == '\t' || c == '\n' || c == '\r' || c == '\x0b' || c == '\x0c'

/-- `str.strip()` on a character list: drop whitespace from both ends. -/
def pyStripList (l : List Char) : List Char :=
  ((l.dropWhile pyWs).reverse.dropWhile pyWs).reverse

/-- Python `str.strip()`. -/
def pyStrip (s : String) : String :=
  String.mk (pyStripList s.toList)

/-- Normalise CRLF and lone CR line boundaries to LF, the first step in
modelling Python `str.splitlines()` (ASCII line boundaries). -/
def normNl : List Char → List Char
  | [] => []
  | '\r' :: '\n' :: rest => '\n' :: normNl rest
  | '\r' :: rest => '\n' :: normNl rest
  | c :: rest => c :: normNl rest

/-- Split a character list at every LF, keeping a (possibly empty) trailing
segment. -/
def splitNl : List Char → List (List Char)
  | [] => [[]]
  | '\n' :: rest => [] :: splitNl rest
  | c :: rest =>
    match splitNl rest with
    | [] => [[c]]
    | g :: gs => (c :: g) :: gs

/-- Python `str.splitlines()`: one entry per line, a terminal line boundary
does not produce a trailing empty line, and the empty string yields `[]`. -/
def pySplitlines (s : String) : List String :=
  let parts := splitNl (normNl s.toList)
  let parts := if parts.getLast? == some [] then parts.dropLast else parts
  parts.map String.mk

/-- Python `str.lower()` (ASCII). -/
def pyLower (s : String) : String :=
  String.mk (s.toList.map Char.toLower)

/-- Python `str.upper()` (ASCII). -/
def pyUpper (s : String) : String :=
  String.mk (s.toList.map Char.toUpper)

/-- Python `str.startswith`. -/
def strStarts (p s : String) : Bool :=
  p.toList.isPrefixOf s.toList

/-- Python `str.endswith`. -/
def strEnds (p s : String) : Bool :=
  p.toList.reverse.isPrefixOf s.toList.reverse

/-- Python slicing `s[3:-3]` (empty when the string has at most 6 chars). -/
def cutFence (s : String) : String :=
  String.mk (((s.toList.drop 3).reverse.drop 3).reverse)

/-! ## Content cleaning (routes.py, clean_generated_email) -/

/-- Embedding of `routes.clean_generated_email`: strip the text, remove a
wrapping triple-backtick fence if the stripped text both starts and ends with
one, then drop a stray leading bare "html" line if present. -/
def clean_generated_email (email_text : String) : String :=
  let t := pyStrip email_text
  let t :=
    if strStarts ("```") t && strEnds ("```") t then pyStrip (cutFence t) else t
  match pySplitlines t with
  | [] => t
  | l0 :: rest =>
    if pyLower (pyStrip l0) == "html" then
      pyStrip (String.intercalate ("\n") rest)
    else t

/-- The fenced example input from the spec. -/
def exFence : String := "```html\nHello\n```"

/-- The already-clean example input from the spec. -/
def exHello : String := "Hello"

/-- An input on which cleaning is not idempotent: the first pass strips one
leading "html" line, leaving another. -/
def exDoubleHtml : String := "html\nhtml"

/-- C7 counterexample: `clean_generated_email` is NOT idempotent.  On the
input "html\nhtml" one cleaning pass yields "html" and a second pass yields
the empty string, so cleaning twice differs from cleaning once. -/
theorem C7_counterexample :
    clean_generated_email (clean_generated_email exDoubleHtml) ≠
      clean_generated_email exDoubleHtml := by
  decide

/-- C7 (amended): cleaning the fenced example yields "Hello", cleaning
"Hello" yields "Hello", and cleaning twice equals cleaning once on both of
these example inputs; full idempotence fails (see the counterexample). -/
theorem C7_cleaning_examples :
    clean_generated_email exFence = exHello ∧
    clean_generated_email exHello = exHello ∧
    clean_generated_email (clean_generated_email exFence) =
      clean_generated_email exFence ∧
    clean_generated_email (clean_generated_email exHello) =
      clean_generated_email exHello := by
  decide

/-! ## Datetime model (Python datetime subset used by the service) -/

/-- A Python `datetime` value: a naive or offset-aware timestamp.
`tzMinutes` is the UTC offset in minutes, `none` for a naive datetime. -/
structure PyDateTime where
  year : Nat
  month : Nat
  day : Nat
  hour : Nat
  minute : Nat
  second : Nat
  tzMinutes : Option Int
deriving DecidableEq, Repr

/-- Leap-year test (Gregorian). -/
def isLeap (y : Nat) : Bool :=
  (y % 4 == 0 && y % 100 != 0) || y % 400 == 0

/-- Days in a month. -/
def daysInMonth (y m : Nat) : Nat :=
  if m == 2 then (if isLeap y then 29 else 28)
  else if m == 4 || m == 6 || m == 9 || m == 11 then 30
  else 31

/-- Parse one decimal digit. -/
def digVal? (c : Char) : Option Nat :=
  if c.isDigit then some (c.toNat - 48) else none

/-- Parse exactly `n` decimal digits from the front of the list. -/
def parseDigits : Nat → List Char → Option (Nat × List Char)
  | 0, cs => some (0, cs)
  | _ + 1, [] => none
  | n + 1, c :: cs => do
    let d ← digVal? c
    let (rest, cs') ← parseDigits n cs
    pure (d * 10 ^ n + rest, cs')

/-- Consume an expected character. -/
def expectChar (c : Char) : List Char → Option (List Char)
  | [] => none
  | c' :: cs => if c' == c then some cs else none

/-- Parse the trailing `±HH:MM` UTC-offset suffix (or nothing, for naive). -/
def parseOffset : List Char → Option (Option Int)
  | [] => some none
  | c :: cs => do
    let sign : Int ← if c == '+' then some 1 else if c == '-' then some (-1) else none
    let (oh, cs) ← parseDigits 2 cs
    let cs ← expectChar ':' cs
    let (om, cs) ← parseDigits 2 cs
    if cs.isEmpty && oh < 24 && om < 60 then
      some (some (sign * (oh * 60 + om : Nat)))
    else none

/-- Parse the `HH:MM:SS` time part followed by an optional offset. -/
def parseTimePart (y mo d : Nat) (cs : List Char) : Option PyDateTime := do
  let (h, cs) ← parseDigits 2 cs
  let cs ← expectChar ':' cs
  let (mi, cs) ← parseDigits 2 cs
  let cs ← expectChar ':' cs
  let (s, cs) ← parseDigits 2 cs
  let tz ← parseOffset cs
  if h < 24 && mi < 60 && s < 60 then
    some ⟨y, mo, d, h, mi, s, tz⟩
  else none

/-- Model of Python `datetime.fromisoformat` on the strict classic subset
`YYYY-MM-DD[THH:MM:SS[±HH:MM]]` (no fractional seconds), which is the shape
the service feeds it after replacing `Z` with `+00:00`.  Returns `none`
where Python raises `ValueError`. -/
def pyFromIso (s : String) : Option PyDateTime := do
  let cs := s.toList
  let (y, cs) ← parseDigits 4 cs
  let cs ← expectChar '-' cs
  let (mo, cs) ← parseDigits 2 cs
  let cs ← expectChar '-' cs
  let (d, cs) ← parseDigits 2 cs
  if 1 ≤ mo && mo ≤ 12 && 1 ≤ d && d ≤ daysInMonth y mo then
    match cs with
    | [] => some ⟨y, mo, d, 0, 0, 0, none⟩
    | sep :: rest =>
      if sep == 'T' || sep == ' ' then parseTimePart y mo d rest else none
  else none

/-- Python `s.replace('Z', '+00:00')`: every `Z` becomes `+00:00`. -/
def replaceZList : List Char → List Char
  | [] => []
  | 'Z' :: rest => '+' :: '0' :: '0' :: ':' :: '0' :: '0' :: replaceZList rest
  | c :: rest => c :: replaceZList rest

/-- Python `s.replace('Z', '+00:00')`. -/
def replaceZ (s : String) : String :=
  String.mk (replaceZList s.toList)

/-- Zero-pad a number to two digits. -/
def pad2 (n : Nat) : String :=
  if n < 10 then "0" ++ toString n else toString n

/-- Zero-pad a number to four digits. -/
def pad4 (n : Nat) : String :=
  if n < 10 then "000" ++ toString n
  else if n < 100 then "00" ++ toString n
  else if n < 1000 then "0" ++ toString n
  else toString n

/-- Render a UTC offset as `±HH:MM`, as Python `datetime.isoformat` does. -/
def offsetStr (off : Int) : String :=
  if 0 ≤ off then
    "+" ++ pad2 (off.toNat / 60) ++ ":" ++ pad2 (off.toNat % 60)
  else
    "-" ++ pad2 ((-off).toNat / 60) ++ ":" ++ pad2 ((-off).toNat % 60)

/-- Python `datetime.isoformat()` (microseconds are zero in this model, so
they are never printed). -/
def PyDateTime.isoformat (d : PyDateTime) : String :=
  pad4 d.year ++ "-" ++ pad2 d.month ++ "-" ++ pad2 d.day ++ "T" ++
    pad2 d.hour ++ ":" ++ pad2 d.minute ++ ":" ++ pad2 d.second ++
    (match d.tzMinutes with
     | none => ""
     | some off => offsetStr off)

/-- Python `dt + timedelta(hours=1)`: wall-clock addition of one hour with
day/month/year carry; the offset (if any) is unchanged. -/
def PyDateTime.addOneHour (d : PyDateTime) : PyDateTime :=
  if d.hour + 1 < 24 then { d with hour := d.hour + 1 }
  else if d.day + 1 ≤ daysInMonth d.year d.month then
    { d with hour := 0, day := d.day + 1 }
  else if d.month + 1 ≤ 12 then
    { d with hour := 0, day := 1, month := d.month + 1 }
  else
    { d with hour := 0, day := 1, month := 1, year := d.year + 1 }

/-! ## Lead model and name disambiguation (models.Lead, routes.py lookups) -/

/-- A row of the `leads` table (the columns the routes read). -/
structure LeadR where
  id : Nat
  user_id : Nat
  name : String
  email : String
  phone : String
  status : String
  source : String
deriving DecidableEq, Repr

/-- Case-insensitive substring containment: does `needle` occur inside
`hay`?  Models SQL `ILIKE '%needle%'` applied to the lowered strings (LIKE
metacharacters inside the needle are not modelled). -/
def subOccurs (needle hay : List Char) : Bool :=
  if needle.isPrefixOf hay then true
  else
    match hay with
    | [] => false
    | _ :: t => subOccurs needle t

/-- `Lead.name.ilike(f"%term%")`: case-insensitive substring match. -/
def ciContains (term name : String) : Bool :=
  subOccurs (term.toList.map Char.toLower) (name.toList.map Char.toLower)

/-- The filter the three workflow routes apply:
`Lead.user_id == uid AND Lead.name ILIKE '%term%'`. -/
def leadMatches (uid : Nat) (term : String) (l : LeadR) : Bool :=
  l.user_id == uid && ciContains term l.name

/-- `db.query(Lead).filter(...).all()` for the disambiguation lookup. -/
def matchingLeads (db : List LeadR) (uid : Nat) (term : String) : List LeadR :=
  db.filter (leadMatches uid term)

/-- The per-lead record enumerated in a 300 Multiple Choices response
(`lead_id`, `name`, `email`, `phone`, `status`, `source`). -/
structure LeadInfo where
  lead_id : Nat
  name : String
  email : String
  phone : String
  status : String
  source : String
deriving DecidableEq, Repr

/-- Project a lead row to its 300-response summary. -/
def toLeadInfo (l : LeadR) : LeadInfo :=
  ⟨l.id, l.name, l.email, l.phone, l.status, l.source⟩

/-- The response fields of the workflow routes that the claims talk about:
the HTTP status, the `matching_leads`/`matching_contacts` list of a 300
response, and for a 202 response the matched lead's name and the
appointment/call times echoed back. -/
structure WorkflowResp where
  status : Nat
  matching : List LeadInfo := []
  leadName : Option String := none
  startTime : Option String := none
  endTime : Option String := none
deriving DecidableEq, Repr

/-- A `POST /book_appointment` request body; `none` marks an absent key. -/
structure BookReq where
  user_id : Option Nat := none
  lead_name : Option String := none
  start_time : Option String := none
  location : Option String := none
  description : Option String := none
deriving DecidableEq, Repr

/-- Embedding of the synchronous part of `routes.book_appointment`: validate
field presence, run the three-way lead disambiguation, parse the start time
(`ValueError` is answered with 400 by the dedicated handler), and build the
immediate 202 response with `end_time = start_time + 1 hour`.  A missing
required field raises `HTTPException(400)` inside the `try`, which the
route's own blanket `except Exception` converts to a 500. -/
def book_appointment (db : List LeadR) (req : BookReq) : WorkflowResp :=
  match req.user_id, req.lead_name, req.start_time with
  | some uid, some lname, some stime =>
    match matchingLeads db uid lname with
    | [] => { status := 404 }
    | [lead] =>
      match pyFromIso (replaceZ stime) with
      | none => { status := 400 }
      | some st =>
        { status := 202
          leadName := some lead.name
          startTime := some st.isoformat
          endTime := some st.addOneHour.isoformat }
    | l1 :: l2 :: ls =>
      { status := 300, matching := (l1 :: l2 :: ls).map toLeadInfo }
  | _, _, _ => { status := 500 }

/-- A `POST /initiate_call` request body; `none` marks an absent key. -/
structure CallReq where
  user_id : Option Nat := none
  contact_name : Option String := none
  call_time : Option String := none
  discussion_points : Option String := none
deriving DecidableEq, Repr

/-- Embedding of the synchronous part of `routes.initiate_call`: missing
fields are answered with a returned 400 `JSONResponse`, then the same
three-way disambiguation runs on `contact_name`; on a unique match the call
time is parsed (400 on failure) and a 202 response is returned with the
contact's details and the parsed call time. -/
def initiate_call (db : List LeadR) (req : CallReq) : WorkflowResp :=
  match req.user_id, req.contact_name, req.call_time with
  | some uid, some cname, some ctime =>
    match matchingLeads db uid cname with
    | [] => { status := 404 }
    | [contact] =>
      match pyFromIso (replaceZ ctime) with
      | none => { status := 400 }
      | some ct =>
        { status := 202
          leadName := some contact.name
          startTime := some ct.isoformat }
    | l1 :: l2 :: ls =>
      { status := 300, matching := (l1 :: l2 :: ls).map toLeadInfo }
  | _, _, _ => { status := 400 }

/-- A `POST /send_message` request body; `none` marks an absent key. -/
structure MsgReq where
  user_id : Option Nat := none
  lead_name : Option String := none
  message_type : Option String := none
  message_content : Option String := none
deriving DecidableEq, Repr

/-- Embedding of the synchronous part of `routes.send_message`: missing
fields are answered with a returned 400, `message_type` must upper-case to
SMS or EMAIL (else 400), then the three-way disambiguation runs on
`lead_name` and a unique match yields the 202 response. -/
def send_message (db : List LeadR) (req : MsgReq) : WorkflowResp :=
  match req.user_id, req.lead_name, req.message_type, req.message_content with
  | some uid, some lname, some mtype, some _ =>
    if pyUpper mtype != "SMS" && pyUpper mtype != "EMAIL" then
      { status := 400 }
    else
      match matchingLeads db uid lname with
      | [] => { status := 404 }
      | [lead] => { status := 202, leadName := some lead.name }
      | l1 :: l2 :: ls =>
        { status := 300, matching := (l1 :: l2 :: ls).map toLeadInfo }
  | _, _, _, _ => { status := 400 }

/-- C1: for every request to book_appointment, initiate_call, or
send_message carrying all required fields (with a parseable time and a valid
message type where those are consumed), the lead is looked up by
case-insensitive substring match on name scoped to the requesting user, and
the outcome is three-way: zero matches yields 404, exactly one match yields
the 202 accepted response, and two or more matches yield a 300 response
enumerating every matching lead with its id, name, email, phone, status and
source. -/
theorem C1_disambiguation_three_way
    (db : List LeadR) (uid : Nat) (nm st mt mc : String) (d : PyDateTime)
    (hst : pyFromIso (replaceZ st) = some d)
    (hmt : pyUpper mt = "SMS" ∨ pyUpper mt = "EMAIL") :
    (matchingLeads db uid nm = [] →
      (book_appointment db ⟨some uid, some nm, some st, none, none⟩).status = 404 ∧
      (initiate_call db ⟨some uid, some nm, some st, none⟩).status = 404 ∧
      (send_message db ⟨some uid, some nm, some mt, some mc⟩).status = 404) ∧
    (∀ lead, matchingLeads db uid nm = [lead] →
      (book_appointment db ⟨some uid, some nm, some st, none, none⟩).status = 202 ∧
      (initiate_call db ⟨some uid, some nm, some st, none⟩).status = 202 ∧
      (send_message db ⟨some uid, some nm, some mt, some mc⟩).status = 202) ∧
    (∀ l1 l2 ls, matchingLeads db uid nm = l1 :: l2 :: ls →
      book_appointment db ⟨some uid, some nm, some st, none, none⟩ =
        { status := 300, matching := (l1 :: l2 :: ls).map toLeadInfo } ∧
      initiate_call db ⟨some uid, some nm, some st, none⟩ =
        { status := 300, matching := (l1 :: l2 :: ls).map toLeadInfo } ∧
      send_message db ⟨some uid, some nm, some mt, some mc⟩ =
        { status := 300, matching := (l1 :: l2 :: ls).map toLeadInfo }) := by
  refine ⟨?_, ?_, ?_⟩
  · intro h
    rcases hmt with h' | h' <;>
      simp [book_appointment, initiate_call, send_message, h, h']
  · intro lead h
    rcases hmt with h' | h' <;>
      simp [book_appointment, initiate_call, send_message, h, hst, h']
  · intro l1 l2 ls h
    rcases hmt with h' | h' <;>
      simp [book_appointment, initiate_call, send_message, h, h']

/-- A lead used to witness the disambiguation theorem. -/
def leadJohn : LeadR :=
  ⟨3, 1, "John Smith", "john@x.com", "+1555", "new", "csv"⟩

/-- A second lead with the same surname for the multiple-match case. -/
def leadJane : LeadR :=
  ⟨4, 1, "Jane Smith", "jane@x.com", "+1556", "new", "web"⟩

/-- A leads table holding two Smiths for user 1. -/
def dbSmiths : List LeadR := [leadJohn, leadJane]

/-- A Zulu-suffixed ISO timestamp. -/
def isoZ : String := "2024-01-15T14:00:00Z"

/-- The datetime that `isoZ` parses to after `Z` is replaced by `+00:00`. -/
def dtUtc : PyDateTime := ⟨2024, 1, 15, 14, 0, 0, some 0⟩

/-- Witness for C1: with two leads named Smith for user 1, all three
endpoints answer 300 and enumerate both matches. -/
theorem C1_witness :
    (book_appointment dbSmiths ⟨some 1, some ("Smith"), some isoZ, none, none⟩).status = 300 ∧
    (initiate_call dbSmiths ⟨some 1, some ("Smith"), some isoZ, none⟩).status = 300 ∧
    (send_message dbSmiths ⟨some 1, some ("Smith"), some ("sms"), some ("hi")⟩).status = 300 ∧
    (book_appointment dbSmiths ⟨some 1, some ("Smith"), some isoZ, none, none⟩).matching =
      [toLeadInfo leadJohn, toLeadInfo leadJane] := by
  have h := C1_disambiguation_three_way dbSmiths 1 ("Smith") isoZ ("sms") ("hi")
    dtUtc (by decide) (Or.inl (by decide))
  obtain ⟨hb, hc, hm⟩ := h.2.2 leadJohn leadJane [] (by decide)
  exact ⟨by rw [hb], by rw [hc], by rw [hm], by rw [hb]; rfl⟩

/-- The single matching lead used for the booking-response claims. -/
def leadAnn : LeadR :=
  ⟨7, 1, "Ann Smith", "ann@x.com", "+1557", "new", "crm"⟩

/-- A leads table with exactly one Smith for user 1. -/
def dbAnn : List LeadR := [leadAnn]

/-- A naive ISO timestamp (no offset, no Z suffix). -/
def isoNaive : String := "2024-01-15T14:00:00"

/-- C8 counterexample: an accepted booking whose submitted start time is
naive (no `Z`, no offset) is answered 202 with `start_time` echoed without
any offset — it is not normalized to a `+00:00` offset as claimed, because
the code only textually replaces a literal `Z`. -/
theorem C8_counterexample :
    (book_appointment dbAnn ⟨some 1, some ("Smith"), some isoNaive, none, none⟩).status = 202 ∧
    (book_appointment dbAnn ⟨some 1, some ("Smith"), some isoNaive, none, none⟩).startTime =
      some isoNaive ∧
    strEnds ("+00:00") isoNaive = false ∧
    (book_appointment dbAnn ⟨some 1, some ("Smith"), some isoNaive, none, none⟩).startTime ≠
      some ("2024-01-15T14:00:00+00:00") := by
  decide

/-- C8 (amended): for every accepted book_appointment request (exactly one
matching lead and a parseable start time), the 202 response carries
`start_time` equal to the ISO rendering of the parsed submitted time (any
literal `Z` having been replaced by `+00:00`; naive inputs stay naive),
`end_time` exactly one hour later, and `lead_details.name` equal to the
matched lead's name. -/
theorem C8_booking_response (db : List LeadR) (uid : Nat) (nm st : String)
    (loc desc : Option String) (lead : LeadR) (d : PyDateTime)
    (hm : matchingLeads db uid nm = [lead])
    (hp : pyFromIso (replaceZ st) = some d) :
    book_appointment db ⟨some uid, some nm, some st, loc, desc⟩ =
      { status := 202
        matching := []
        leadName := some lead.name
        startTime := some d.isoformat
        endTime := some d.addOneHour.isoformat } := by
  simp [book_appointment, hm, hp]

/-- Witness for C8 (amended): the spec's own scenario — a `Z`-suffixed
start time books from 14:00 to 15:00 UTC with the offset rendered as
`+00:00`. -/
theorem C8_booking_response_witness :
    book_appointment dbAnn ⟨some 1, some ("Smith"), some isoZ, none, none⟩ =
      { status := 202
        matching := []
        leadName := some ("Ann Smith")
        startTime := some ("2024-01-15T14:00:00+00:00")
        endTime := some ("2024-01-15T15:00:00+00:00") } := by
  have h := C8_booking_response dbAnn 1 ("Smith") isoZ none none leadAnn dtUtc
    (by decide) (by decide)
  rw [h]
  rfl

/-! ## Credential store (google_integration.py, models.Integration) -/

/-- The in-memory Google `Credentials` object as the service observes it:
its token material plus the `expired` property it consults.  `expired` is
the boolean the library derives from the expiry and the clock; it is modelled
as a field because the code only ever reads it. -/
structure Credentials where
  token : String
  refresh_token : Option String
  token_uri : String
  client_id : String
  client_secret : String
  scopes : List String
  expiry : Option PyDateTime
  expired : Bool
deriving DecidableEq, Repr

/-- Python truthiness of `credentials.refresh_token`: absent (`None`) and
the empty string are both falsy. -/
def tokenTruthy : Option String → Bool
  | none => false
  | some s => s != ""

/-- The persisted credential JSON blob.  `email := none` models the `email`
key being absent from the stored dictionary. -/
structure StoredCreds where
  token : String
  refresh_token : Option String
  token_uri : String
  client_id : String
  client_secret : String
  scopes : List String
  expiry : Option String
  email : Option String
deriving DecidableEq, Repr

/-- The `credentials_dict` built by `save_integration_to_db`: all token
fields plus the account email. -/
def mkSaveDict (c : Credentials) (email : String) : StoredCreds :=
  { token := c.token
    refresh_token := c.refresh_token
    token_uri := c.token_uri
    client_id := c.client_id
    client_secret := c.client_secret
    scopes := c.scopes
    expiry := c.expiry.map PyDateTime.isoformat
    email := some email }

/-- The dictionary `refresh_and_save_credentials` writes back after a
successful handshake: the same token fields, but no `email` key. -/
def mkRefreshDict (c : Credentials) : StoredCreds :=
  { token := c.token
    refresh_token := c.refresh_token
    token_uri := c.token_uri
    client_id := c.client_id
    client_secret := c.client_secret
    scopes := c.scopes
    expiry := c.expiry.map PyDateTime.isoformat
    email := none }

/-- A row of the `integrations` table. -/
structure IntegrationRow where
  user_id : Nat
  platform_name : String
  credentials : StoredCreds
deriving DecidableEq, Repr

/-- A row of the `integration_status` table; `last_checked` is a clock
tick supplied by the caller (standing for `datetime.utcnow()`). -/
structure StatusRow where
  user_id : Nat
  platform_name : String
  status : String
  last_checked : Nat
deriving DecidableEq, Repr

/-- The database state the credential store reads and writes. -/
structure CredDB where
  integrations : List IntegrationRow
  statuses : List StatusRow
deriving DecidableEq, Repr

/-- Does an integration row belong to `(uid, 'google_calendar')`? -/
def keyMatch (uid : Nat) (r : IntegrationRow) : Bool :=
  r.user_id == uid && r.platform_name == "google_calendar"

/-- Does a status row belong to `(uid, 'google_calendar')`? -/
def statusKeyMatch (uid : Nat) (r : StatusRow) : Bool :=
  r.user_id == uid && r.platform_name == "google_calendar"

/-- `query(Integration).filter_by(...).first()` followed by either a mutate
of the found row's `credentials` or a `db.add` of a fresh row: replace the
first matching row's credentials, appending a new row when none matches. -/
def upsertIntegration (uid : Nat) (c : StoredCreds) :
    List IntegrationRow → List IntegrationRow
  | [] => [⟨uid, "google_calendar", c⟩]
  | r :: rs =>
    if keyMatch uid r then { r with credentials := c } :: rs
    else r :: upsertIntegration uid c rs

/-- Same shape for the status table: set the first matching row to
`active` with a refreshed `last_checked`, appending a fresh `active` row
when none matches. -/
def upsertStatus (uid : Nat) (now : Nat) :
    List StatusRow → List StatusRow
  | [] => [⟨uid, "google_calendar", "active", now⟩]
  | r :: rs =>
    if statusKeyMatch uid r then
      { r with status := "active", last_checked := now } :: rs
    else r :: upsertStatus uid now rs

/-- The state transformation performed inside `save_integration_to_db`'s
transaction. -/
def applySave (db : CredDB) (c : Credentials) (email : String) (uid : Nat)
    (now : Nat) : CredDB :=
  { integrations := upsertIntegration uid (mkSaveDict c email) db.integrations
    statuses := upsertStatus uid now db.statuses }

/-- Embedding of `google_integration.save_integration_to_db`.  The boolean
oracle `ok` says whether the transaction commits; on failure the
`except/rollback/raise` leaves the database untouched and re-raises, so the
caller observes the old state together with the error. -/
def save_integration_to_db (ok : Bool) (db : CredDB) (c : Credentials)
    (email : String) (uid : Nat) (now : Nat) : CredDB × Except Unit Unit :=
  if ok then (applySave db c email uid now, Except.ok ())
  else (db, Except.error ())

/-- `first()`-style lookup of the stored credentials for a user. -/
def lookupIntegration (db : CredDB) (uid : Nat) : Option StoredCreds :=
  (db.integrations.find? (keyMatch uid)).map IntegrationRow.credentials

/-- `first()`-style lookup of the integration status string for a user. -/
def lookupStatus (db : CredDB) (uid : Nat) : Option String :=
  (db.statuses.find? (statusKeyMatch uid)).map StatusRow.status

/-- Number of credential-bundle rows stored for `(uid, 'google_calendar')`. -/
def bundleCount (db : CredDB) (uid : Nat) : Nat :=
  (db.integrations.filter (keyMatch uid)).length

/-! ## Credential refresh (google_integration.refresh_and_save_credentials) -/

/-- Outcome of the token-endpoint handshake `credentials.refresh(...)`. -/
inductive RefreshOutcome where
  | success (newToken : String) (newExpiry : Option PyDateTime)
  | failure
deriving DecidableEq, Repr

/-- What a run of `refresh_and_save_credentials` produces: the returned
value, the database afterwards, and how many external token-endpoint calls
and committed database writes happened along the way. -/
structure RefreshResult where
  result : Option Credentials
  db : CredDB
  externalCalls : Nat
  dbWrites : Nat
deriving DecidableEq, Repr

/-- The in-memory credentials after a successful `refresh`: token and expiry
replaced, no longer expired, everything else (incl. the refresh token)
kept. -/
def refreshedCreds (c : Credentials) (tok : String)
    (exp : Option PyDateTime) : Credentials :=
  { c with token := tok, expiry := exp, expired := false }

/-- Replace the first matching integration row's credentials; identity when
no row matches (the code only assigns to a row it found). -/
def setFirstCreds (uid : Nat) (c : StoredCreds) :
    List IntegrationRow → List IntegrationRow
  | [] => []
  | r :: rs =>
    if keyMatch uid r then { r with credentials := c } :: rs
    else r :: setFirstCreds uid c rs

/-- Embedding of `google_integration.refresh_and_save_credentials`:
return `None` for missing credentials; return the bundle unchanged (no
external call, no write) when not expired; return `None` (no external call,
no write) when expired without a truthy refresh token; otherwise perform the
handshake (one external call), and on success write the refreshed bundle
back — a write failure is rolled back and swallowed, the refreshed
credentials being returned either way.  `outcome` is the handshake oracle
and `dbOk` the write oracle. -/
def refresh_and_save_credentials (uid : Nat) (credentials : Option Credentials)
    (outcome : RefreshOutcome) (dbOk : Bool) (db : CredDB) : RefreshResult :=
  match credentials with
  | none => ⟨none, db, 0, 0⟩
  | some creds =>
    if !creds.expired then ⟨some creds, db, 0, 0⟩
    else if !tokenTruthy creds.refresh_token then ⟨none, db, 0, 0⟩
    else
      match outcome with
      | .failure => ⟨none, db, 1, 0⟩
      | .success tok exp =>
        let refreshed := refreshedCreds creds tok exp
        match lookupIntegration db uid with
        | none => ⟨some refreshed, db, 1, 0⟩
        | some _ =>
          if dbOk then
            ⟨some refreshed,
              { db with integrations :=
                  setFirstCreds uid (mkRefreshDict refreshed) db.integrations },
              1, 1⟩
          else ⟨some refreshed, db, 1, 0⟩

/-! ## Lemmas about the upsert helpers -/

/-- Upserting establishes exactly one row for the key when at most one was
present: a fresh row is appended when none matched, and the first matching
row is overwritten otherwise. -/
theorem upsertIntegration_count (uid : Nat) (c : StoredCreds)
    (l : List IntegrationRow) :
    ((upsertIntegration uid c l).filter (keyMatch uid)).length =
      if (l.filter (keyMatch uid)).length = 0 then 1
      else (l.filter (keyMatch uid)).length := by
  induction l with
  | nil => simp [upsertIntegration, keyMatch]
  | cons r rs ih =>
    by_cases h : keyMatch uid r = true
    · have h' : keyMatch uid { r with credentials := c } = true := by
        simpa [keyMatch] using h
      simp [upsertIntegration, h, h', List.filter_cons]
    · simp [upsertIntegration, h, List.filter_cons, ih]

/-- After an upsert, the first row found for the key stores the new
credentials. -/
theorem upsertIntegration_find (uid : Nat) (c : StoredCreds)
    (l : List IntegrationRow) :
    ((upsertIntegration uid c l).find? (keyMatch uid)).map
        IntegrationRow.credentials = some c := by
  induction l with
  | nil => simp [upsertIntegration, keyMatch]
  | cons r rs ih =>
    by_cases h : keyMatch uid r = true
    · have h' : keyMatch uid { r with credentials := c } = true := by
        simpa [keyMatch] using h
      simp [upsertIntegration, h, List.find?_cons_of_pos _ h']
    · simp [upsertIntegration, h, List.find?_cons_of_neg, ih]

/-- After a status upsert, the first status row found for the key reads
`active`. -/
theorem upsertStatus_find (uid now : Nat) (l : List StatusRow) :
    ((upsertStatus uid now l).find? (statusKeyMatch uid)).map
        StatusRow.status = some ("active") := by
  induction l with
  | nil => simp [upsertStatus, statusKeyMatch]
  | cons r rs ih =>
    by_cases h : statusKeyMatch uid r = true
    · have h' :
          statusKeyMatch uid
            { r with status := "active", last_checked := now } = true := by
        simpa [statusKeyMatch] using h
      simp [upsertStatus, h, List.find?_cons_of_pos _ h']
    · simp [upsertStatus, h, List.find?_cons_of_neg, ih]

/-- Replacing the first matching row's credentials makes the first row found
for the key store the new credentials, provided some row matched. -/
theorem setFirstCreds_find (uid : Nat) (c : StoredCreds)
    (l : List IntegrationRow)
    (h : (l.find? (keyMatch uid)).isSome = true) :
    ((setFirstCreds uid c l).find? (keyMatch uid)).map
        IntegrationRow.credentials = some c := by
  induction l with
  | nil => simp at h
  | cons r rs ih =>
    by_cases hk : keyMatch uid r = true
    · have h' : keyMatch uid { r with credentials := c } = true := by
        simpa [keyMatch] using hk
      simp [setFirstCreds, hk, List.find?_cons_of_pos _ h']
    · rw [List.find?_cons_of_neg _ (by simpa using hk)] at h
      simp [setFirstCreds, hk, List.find?_cons_of_neg, ih h]

/-- C2: `save_integration_to_db` upserts the credential bundle keyed by
(user_id, 'google_calendar') — starting from at most one stored bundle for
the pair it leaves exactly one, equal to the dictionary built from the
supplied credentials and email — sets the Integration Status row to
`active`, and is atomic: when the transaction fails the stored state is
exactly the prior state and the exception is re-raised to the caller. -/
theorem C2_save_upsert_atomic (db : CredDB) (c : Credentials) (email : String)
    (uid now : Nat) (h : bundleCount db uid ≤ 1) :
    bundleCount (applySave db c email uid now) uid = 1 ∧
    lookupIntegration (applySave db c email uid now) uid =
      some (mkSaveDict c email) ∧
    lookupStatus (applySave db c email uid now) uid = some ("active") ∧
    save_integration_to_db true db c email uid now =
      (applySave db c email uid now, Except.ok ()) ∧
    save_integration_to_db false db c email uid now =
      (db, Except.error ()) := by
  refine ⟨?_, ?_, ?_, rfl, rfl⟩
  · show ((upsertIntegration uid (mkSaveDict c email)
        db.integrations).filter (keyMatch uid)).length = 1
    rw [upsertIntegration_count]
    have hc : (db.integrations.filter (keyMatch uid)).length =
        bundleCount db uid := rfl
    rcases Nat.le_one_iff_eq_zero_or_eq_one.mp h with h0 | h1
    · rw [hc, h0]
      decide
    · rw [hc, h1]
      decide
  · exact upsertIntegration_find uid (mkSaveDict c email) db.integrations
  · exact upsertStatus_find uid now db.statuses

/-- A credential bundle used to instantiate the store theorems. -/
def credsA : Credentials :=
  ⟨"tokA", some ("rtA"), "https://oauth2.googleapis.com/token", "cid", "sec",
    ["calendar"], some dtUtc, false⟩

/-- An empty credential database. -/
def emptyCredDB : CredDB := ⟨[], []⟩

/-- Witness for C2: saving into an empty store creates exactly one bundle
holding the saved dictionary, an `active` status, and the failing
transaction leaves the empty store untouched. -/
theorem C2_witness :
    bundleCount (applySave emptyCredDB credsA ("a@x.com") 1 5) 1 = 1 ∧
    lookupIntegration (applySave emptyCredDB credsA ("a@x.com") 1 5) 1 =
      some (mkSaveDict credsA ("a@x.com")) ∧
    lookupStatus (applySave emptyCredDB credsA ("a@x.com") 1 5) 1 =
      some ("active") ∧
    save_integration_to_db true emptyCredDB credsA ("a@x.com") 1 5 =
      (applySave emptyCredDB credsA ("a@x.com") 1 5, Except.ok ()) ∧
    save_integration_to_db false emptyCredDB credsA ("a@x.com") 1 5 =
      (emptyCredDB, Except.error ()) :=
  C2_save_upsert_atomic emptyCredDB credsA ("a@x.com") 1 5 (by decide)

/-- C3: `refresh_and_save_credentials` on a non-expired bundle returns that
bundle unchanged with zero external calls and zero database writes; on an
expired bundle without a (truthy) refresh token it returns `None`, again
with zero external calls and zero database writes. -/
theorem C3_refresh_noop (uid : Nat) (creds : Credentials)
    (outcome : RefreshOutcome) (dbOk : Bool) (db : CredDB) :
    (creds.expired = false →
      refresh_and_save_credentials uid (some creds) outcome dbOk db =
        ⟨some creds, db, 0, 0⟩) ∧
    (creds.expired = true → tokenTruthy creds.refresh_token = false →
      refresh_and_save_credentials uid (some creds) outcome dbOk db =
        ⟨none, db, 0, 0⟩) := by
  refine ⟨fun h => ?_, fun h1 h2 => ?_⟩
  · simp [refresh_and_save_credentials, h]
  · simp [refresh_and_save_credentials, h1, h2]

/-- A non-expired credential bundle. -/
def credsFresh : Credentials :=
  ⟨"tok1", some ("rt1"), "uri", "cid", "sec", [], none, false⟩

/-- An expired credential bundle without a refresh token. -/
def credsStale : Credentials :=
  ⟨"tok2", none, "uri", "cid", "sec", [], none, true⟩

/-- Witness for C3 at concrete bundles: the non-expired bundle is returned
unchanged and the expired token-less bundle yields `None`, both with zero
external calls and zero writes. -/
theorem C3_witness :
    refresh_and_save_credentials 1 (some credsFresh) .failure true emptyCredDB =
      ⟨some credsFresh, emptyCredDB, 0, 0⟩ ∧
    refresh_and_save_credentials 1 (some credsStale) .failure true emptyCredDB =
      ⟨none, emptyCredDB, 0, 0⟩ :=
  ⟨(C3_refresh_noop 1 credsFresh .failure true emptyCredDB).1 rfl,
   (C3_refresh_noop 1 credsStale .failure true emptyCredDB).2 rfl rfl⟩

/-- An expired bundle holding a refresh token, as stored by a prior save. -/
def credsExp : Credentials :=
  ⟨"oldTok", some ("rt9"), "uri", "cid", "sec", ["s1"], none, true⟩

/-- The store after `save` ran for `credsExp` with its account email. -/
def dbWithRow : CredDB :=
  ⟨[⟨1, "google_calendar", mkSaveDict credsExp ("agent@x.com")⟩], []⟩

/-- C4 counterexample: before a refresh the stored bundle carries the
account email; after a successful refresh handshake and write the stored
bundle has NO email key — the refresh write drops it, contradicting the
claim that every other field (including the email) remains present. -/
theorem C4_counterexample :
    (lookupIntegration dbWithRow 1).map StoredCreds.email =
      some (some ("agent@x.com")) ∧
    (lookupIntegration
        (refresh_and_save_credentials 1 (some credsExp)
          (.success ("newTok") none) true dbWithRow).db 1).map
        StoredCreds.email = some none := by
  decide

/-- C4 (amended): when the handshake succeeds and the write commits, the
persisted bundle has the new token and expiry, preserves the refresh token,
token URI, client id, client secret and scopes from the credentials, but
contains no email key — the account email is dropped by the refresh
write. -/
theorem C4_refresh_write_fields (uid : Nat) (creds : Credentials)
    (tok : String) (exp : Option PyDateTime) (db : CredDB)
    (hexp : creds.expired = true)
    (hrt : tokenTruthy creds.refresh_token = true)
    (hrow : (lookupIntegration db uid).isSome = true) :
    (refresh_and_save_credentials uid (some creds)
        (.success tok exp) true db).result =
      some (refreshedCreds creds tok exp) ∧
    lookupIntegration
        (refresh_and_save_credentials uid (some creds)
          (.success tok exp) true db).db uid =
      some
        { token := tok
          refresh_token := creds.refresh_token
          token_uri := creds.token_uri
          client_id := creds.client_id
          client_secret := creds.client_secret
          scopes := creds.scopes
          expiry := exp.map PyDateTime.isoformat
          email := none } := by
  obtain ⟨s, hs⟩ := Option.isSome_iff_exists.mp hrow
  have hfind :
      ((setFirstCreds uid (mkRefreshDict (refreshedCreds creds tok exp))
          db.integrations).find? (keyMatch uid)).map
        IntegrationRow.credentials =
        some (mkRefreshDict (refreshedCreds creds tok exp)) := by
    apply setFirstCreds_find
    simpa [lookupIntegration] using congrArg Option.isSome hs
  constructor
  · simp [refresh_and_save_credentials, hexp, hrt, hs]
  · have hdb :
        (refresh_and_save_credentials uid (some creds)
            (.success tok exp) true db).db =
          CredDB.mk
            (setFirstCreds uid (mkRefreshDict (refreshedCreds creds tok exp))
              db.integrations)
            db.statuses := by
      simp [refresh_and_save_credentials, hexp, hrt, hs]
    rw [hdb]
    exact hfind

/-- Witness for C4 (amended): refreshing the saved expired bundle rewrites
the stored row to the refreshed dictionary, whose email key is absent. -/
theorem C4_refresh_write_fields_witness :
    (refresh_and_save_credentials 1 (some credsExp)
        (.success ("newTok") none) true dbWithRow).result =
      some (refreshedCreds credsExp ("newTok") none) ∧
    lookupIntegration
        (refresh_and_save_credentials 1 (some credsExp)
          (.success ("newTok") none) true dbWithRow).db 1 =
      some
        { token := "newTok"
          refresh_token := some ("rt9")
          token_uri := "uri"
          client_id := "cid"
          client_secret := "sec"
          scopes := ["s1"]
          expiry := none
          email := none } := by
  have h := C4_refresh_write_fields 1 credsExp ("newTok") none dbWithRow
    (by decide) (by decide) (by decide)
  exact ⟨h.1, by rw [h.2]; rfl⟩

/-- C10: when the handshake succeeds but the database write fails, the
error is swallowed: the store is left at the old bundle with zero committed
writes, yet the refreshed in-memory credentials are returned — the same
returned value as a run whose write succeeds, so the caller cannot tell a
persisted refresh from an unpersisted one. -/
theorem C10_swallowed_db_failure (uid : Nat) (creds : Credentials)
    (tok : String) (exp : Option PyDateTime) (db : CredDB)
    (hexp : creds.expired = true)
    (hrt : tokenTruthy creds.refresh_token = true) :
    refresh_and_save_credentials uid (some creds)
        (.success tok exp) false db =
      ⟨some (refreshedCreds creds tok exp), db, 1, 0⟩ ∧
    (refresh_and_save_credentials uid (some creds)
        (.success tok exp) false db).result =
      (refresh_and_save_credentials uid (some creds)
        (.success tok exp) true db).result := by
  cases hl : lookupIntegration db uid <;>
    simp [refresh_and_save_credentials, hexp, hrt, hl]

/-- Witness for C10: a failed write after a successful handshake leaves the
saved store untouched and still returns the refreshed credentials. -/
theorem C10_witness :
    refresh_and_save_credentials 1 (some credsExp)
        (.success ("t2") none) false dbWithRow =
      ⟨some (refreshedCreds credsExp ("t2") none), dbWithRow, 1, 0⟩ :=
  (C10_swallowed_db_failure 1 credsExp ("t2") none dbWithRow
    (by decide) (by decide)).1

/-! ## OAuth callback (routes.google_callback) -/

/-- Python truthiness of an optional string value (a missing key and the
empty string are both falsy). -/
def strTruthy : Option String → Bool
  | none => false
  | some s => s != ""

/-- The callback request: the decoded state's `user_id` entry and the
`code` query parameter (`none` = absent). -/
structure CbReq where
  state_user_id : Option String
  code : Option String
deriving DecidableEq, Repr

/-- Oracles for the callback's external steps: whether the token exchange
succeeds, whether it grants a refresh token, the userinfo email (already
`none` when the identity fetch fails or carries no email — that path is
best-effort and falls back to a placeholder), and whether the credential
save commits. -/
structure CbEnv where
  fetchTokenOk : Bool
  refreshTokenGranted : Bool
  userinfoEmail : Option String
  saveOk : Bool
deriving DecidableEq, Repr

/-- An exception escaping the callback's `try` body: either a FastAPI
`HTTPException` (which subclasses `Exception`) or any other exception. -/
inductive CbErr where
  | http (code : Nat) (msg : String)
  | exc (msg : String)
deriving DecidableEq, Repr

/-- A response produced by the callback route. -/
structure CbResp where
  status : Nat
  detail : String
deriving DecidableEq, Repr

/-- The body of `routes.google_callback`'s `try` block: raise 400 when the
state carries no (truthy) user id, raise 400 when no code is present, fail
on a token-exchange error, RETURN a 400 `JSONResponse` when no refresh token
is granted, fall back to a placeholder email when userinfo fails, save, and
return the 200 success body. -/
def google_callback_inner (req : CbReq) (env : CbEnv) : Except CbErr CbResp :=
  if !strTruthy req.state_user_id then
    Except.error (CbErr.http 400 ("No user ID provided"))
  else if !strTruthy req.code then
    Except.error (CbErr.http 400 ("No authorization code received"))
  else if !env.fetchTokenOk then
    Except.error (CbErr.exc ("fetch_token failed"))
  else if !env.refreshTokenGranted then
    Except.ok ⟨400, "No refresh token received. Please revoke application access and try again."⟩
  else if !env.saveOk then
    Except.error (CbErr.exc ("save failed"))
  else
    Except.ok ⟨200, "Successfully connected to Google Calendar"⟩

/-- Message rendering `str(e)` of an escaped exception. -/
def CbErr.text : CbErr → String
  | .http _ m => m
  | .exc m => m

/-- Embedding of `routes.google_callback`: the whole body sits inside
`try ... except Exception`, and `HTTPException` subclasses `Exception`, so
EVERY exception escaping the body — including the route's own
`HTTPException(400)`s — is re-raised as `HTTPException(500, str(e))`. -/
def google_callback (req : CbReq) (env : CbEnv) : CbResp :=
  match google_callback_inner req env with
  | .ok r => r
  | .error e => ⟨500, e.text⟩

/-- An environment in which every external step succeeds. -/
def envAll : CbEnv := ⟨true, true, some ("u@x.com"), true⟩

/-- An environment whose token exchange grants no refresh token. -/
def envNoRT : CbEnv := ⟨true, false, some ("u@x.com"), true⟩

/-- C5 evidence (code bug): a callback whose state has no user id, and one
with no authorization code, are both answered 500 — the route raises
`HTTPException(400)` inside its own blanket `except Exception`, which
catches it and re-raises a 500 — while the missing-refresh-token case,
which uses a returned `JSONResponse`, is answered 400 as specified. -/
theorem C5_callback_status_evidence :
    (google_callback ⟨none, some ("abc")⟩ envAll).status = 500 ∧
    (google_callback ⟨some ("7"), none⟩ envAll).status = 500 ∧
    (google_callback ⟨none, some ("abc")⟩ envAll).status ≠ 400 ∧
    (google_callback ⟨some ("7"), none⟩ envAll).status ≠ 400 ∧
    (google_callback ⟨some ("7"), some ("abc")⟩ envNoRT).status = 400 := by
  decide

/-! ## save_communication (routes.save_communication) -/

/-- Python truthiness of an optional integer value (missing and 0 falsy). -/
def natTruthy : Option Nat → Bool
  | none => false
  | some n => n != 0

/-- A communication row (shared shape of the three communication tables;
`lead_id`/`drew_id` are set per table). -/
structure CommRow where
  user_id : Nat
  lead_id : Option Nat
  drew_id : Option String
  type : String
  status : String
deriving DecidableEq, Repr

/-- A row of the `calls` table. -/
structure CallRow where
  user_id : Nat
  call_time : PyDateTime
  status : String
  duration : Nat
  call_id : String
deriving DecidableEq, Repr

/-- The tables `save_communication` writes. -/
structure CommDB where
  drewLeadComms : List CommRow
  userLeadComms : List CommRow
  userDrewComms : List CommRow
  calls : List CallRow
deriving DecidableEq, Repr

/-- A `POST /save_communication` request body; `none` marks an absent
key.  `details` stands for the opaque details payload. -/
structure SaveCommReq where
  user_id : Option Nat := none
  type : Option String := none
  status : Option String := none
  details : Option String := none
  lead_id : Option Nat := none
  drew_id : Option String := none
  duration : Option Nat := none
  call_id : Option String := none
  call_time : Option String := none
deriving DecidableEq, Repr

/-- An exception escaping `save_communication`'s `try` body. -/
inductive CommErr where
  | http (code : Nat)
  | valueErr
deriving DecidableEq, Repr

/-- The commit: append the pending communication row to the table selected
by `tag` (0 = Drew–Lead, 1 = User–Lead, 2 = User–Drew) and the pending call
row if any. -/
def commitComm (db : CommDB) (tag : Nat) (row : CommRow)
    (call : Option CallRow) : CommDB :=
  let db :=
    if tag == 0 then { db with drewLeadComms := db.drewLeadComms ++ [row] }
    else if tag == 1 then { db with userLeadComms := db.userLeadComms ++ [row] }
    else { db with userDrewComms := db.userDrewComms ++ [row] }
  match call with
  | none => db
  | some c => { db with calls := db.calls ++ [c] }

/-- The body of `routes.save_communication`'s `try` block: check field
presence (raise 400), check the user exists (raise 404), pick the
communication table from `lead_id`/`drew_id` truthiness (raise 400 when
neither), and for CALL-typed records require `duration` and `call_id`
(raise 400) and parse the optional call time (`ValueError` on bad format);
only then commit the pending rows and answer 201. -/
def save_communication_inner (users : List Nat) (db : CommDB)
    (now : PyDateTime) (req : SaveCommReq) : Except CommErr (Nat × CommDB) :=
  if req.user_id.isNone || req.type.isNone || req.status.isNone ||
      req.details.isNone then
    Except.error (CommErr.http 400)
  else
    match req.user_id, req.type, req.status with
    | some uid, some ty, some st =>
      if !users.contains uid then Except.error (CommErr.http 404)
      else
        let row? : Option (Nat × CommRow) :=
          if natTruthy req.lead_id && strTruthy req.drew_id then
            some (0, ⟨uid, req.lead_id, req.drew_id, ty, st⟩)
          else if natTruthy req.lead_id then
            some (1, ⟨uid, req.lead_id, none, ty, st⟩)
          else if strTruthy req.drew_id then
            some (2, ⟨uid, none, req.drew_id, ty, st⟩)
          else none
        match row? with
        | none => Except.error (CommErr.http 400)
        | some (tag, row) =>
          if pyUpper ty == "CALL" then
            if req.duration.isNone || req.call_id.isNone then
              Except.error (CommErr.http 400)
            else
              match
                (if strTruthy req.call_time then
                  match pyFromIso (replaceZ (req.call_time.getD (""))) with
                  | some d => Except.ok d
                  | none => Except.error CommErr.valueErr
                else Except.ok now : Except CommErr PyDateTime)
              with
              | Except.error e => Except.error e
              | Except.ok ct =>
                Except.ok (201,
                  commitComm db tag row
                    (some ⟨uid, ct, st, req.duration.getD 0,
                      req.call_id.getD ("")⟩))
          else
            Except.ok (201, commitComm db tag row none)
    | _, _, _ => Except.error (CommErr.http 400)

/-- Embedding of `routes.save_communication`: the handler wraps its body in
`try ... except Exception`, rolls the session back and answers 500 on ANY
escaped exception — including its own `HTTPException(400/404)`s, which
`except Exception` catches.  A failure therefore leaves the tables exactly
as they were (pending `db.add`s are discarded by the rollback). -/
def save_communication (users : List Nat) (db : CommDB) (now : PyDateTime)
    (req : SaveCommReq) : Nat × CommDB :=
  match save_communication_inner users db now req with
  | .ok r => r
  | .error _ => (500, db)

/-- A pre-existing communication row, to show failures leave it alone. -/
def preRow : CommRow := ⟨2, none, some ("d0"), "SMS", "sent"⟩

/-- The communications database before the failing request. -/
def commDB0 : CommDB := ⟨[preRow], [], [], []⟩

/-- The clock value standing for `datetime.utcnow()`. -/
def nowT : PyDateTime := ⟨2024, 2, 1, 9, 0, 0, none⟩

/-- A CALL-typed save_communication request that omits `duration`. -/
def reqCallNoDuration : SaveCommReq :=
  { user_id := some 1
    type := some ("CALL")
    status := some ("completed")
    details := some ("{}")
    drew_id := some ("agent_drew")
    call_id := some ("c1") }

/-- C6 evidence (code bug): a CALL-typed request missing `duration` leaves
no Communication and no Call row behind (the rollback discards the pending
communication object), but it is answered 500, not the specified 400 — the
route's `raise HTTPException(400)` is swallowed by its own blanket
`except Exception` and re-raised as a 500 "Server error". -/
theorem C6_call_missing_duration_evidence :
    save_communication [1] commDB0 nowT reqCallNoDuration = (500, commDB0) ∧
    (save_communication [1] commDB0 nowT reqCallNoDuration).1 ≠ 400 := by
  decide

/-! ## Email dispatch (google_integration.send_email_notification) -/

/-- The `event_details` dictionary fields the mailer reads; `none` models a
missing key (`event_details['summary']` raises `KeyError` when absent,
`.get` calls fall back to defaults). -/
structure EventDetails where
  summary : Option String
  description : Option String
  html_link : Option String
deriving DecidableEq, Repr

/-- Outcome oracle for the encode-and-send step (Gmail API call). -/
inductive SendOutcome where
  | delivered
  | sendError
deriving DecidableEq, Repr

/-- The plain-text fallback body built by `send_email_notification`. -/
def plainTextBody (summ descr link : String) : String :=
  "Calendar Invitation: " ++ summ ++ "\n\nDetails:\n" ++ descr ++
    "\n\nMeeting Link: " ++ link ++
    "\n\nThis is an automated message. Please do not reply."

/-- The HTML body built by `send_email_notification`. -/
def htmlBody (descr : String) : String :=
  "<!DOCTYPE html><html><head><meta charset=\x27UTF-8\x27></head>" ++
    "<body style=\x27font-family: Arial, sans-serif;\x27>" ++ descr ++
    "</body></html>"

/-- Embedding of `google_integration.send_email_notification`: build the
multipart/alternative message — the plain part attached first, the HTML
part second — then encode and send; the surrounding `try/except` turns any
failure (including a missing `summary` key) into a `False` return.  The
second component records the attached parts, in order, as
(subtype, content) pairs. -/
def send_email_notification (details : EventDetails) (outcome : SendOutcome) :
    Bool × Option (List (String × String)) :=
  match details.summary with
  | none => (false, none)
  | some summ =>
    let descr := details.description.getD ("No additional details provided.")
    let link := details.html_link.getD ("N/A")
    let parts := [(("plain"), plainTextBody summ descr link),
      (("html"), htmlBody descr)]
    match outcome with
    | .delivered => (true, some parts)
    | .sendError => (false, some parts)

/-- C9: `send_email_notification` never raises past its boundary — every
invocation either returns false (any build, encoding or transport failure),
or returns true having attached exactly a plain-text part strictly before
an HTML part. -/
theorem C9_send_email_total (details : EventDetails) (outcome : SendOutcome) :
    (send_email_notification details outcome).1 = false ∨
    ((send_email_notification details outcome).1 = true ∧
      ∃ t h, (send_email_notification details outcome).2 =
        some [(("plain"), t), (("html"), h)]) := by
  rcases details with ⟨s, d, l⟩
  cases s with
  | none => left; rfl
  | some summ =>
    cases outcome with
    | sendError => left; rfl
    | delivered =>
      right
      exact ⟨rfl,
        plainTextBody summ (d.getD ("No additional details provided."))
          (l.getD ("N/A")),
        htmlBody (d.getD ("No additional details provided.")), rfl⟩

end Drew
